import Mathlib

/-!
Verification of the selection/overlay lifecycle of `src/ImageResize.js`
(quill-image-resize-module).

The JavaScript class is embedded as a pure state machine: the mutable fields
of the `ImageResize` instance (together with the DOM facts the claims are
about — which listeners are installed, which overlay elements are attached
to the editor container) become the structure `MState`, and each method
becomes a function `MState → MState × List Ev`, where `Ev` records the
externally observable actions (module lifecycle calls, style writes,
geometry reads, host-document deletion, alerts).  Machine integers do not
occur; element geometry is exact (`Int`).  The asynchronous clipboard write
is embedded as an explicit outcome parameter (`Except` of the DOM error),
and an `unhandledRejection` flag records whether a rejected promise escapes
the `keyup` handler without any attached rejection handler.
-/

/-- A DOM bounding rectangle as returned by `getBoundingClientRect`
(restricted to the four fields the source reads). -/
structure Rect where
  left : Int
  top : Int
  width : Int
  height : Int
deriving DecidableEq, Repr

/-- The geometry readable at reposition time: the image's and the
container's bounding rectangles and the container's scroll offsets. -/
structure Geom where
  imgRect : Rect
  containerRect : Rect
  scrollLeft : Int
  scrollTop : Int
deriving DecidableEq, Repr

/-- The fields of a `keyup` event read by `checkImage`. -/
structure KeyEvt where
  keyCode : Nat
  key : String
  ctrlKey : Bool
  metaKey : Bool
deriving DecidableEq, Repr

/-- A click-event target: its `tagName` (absent for non-element targets)
and an identifier for the element, which names the image when the target
is an `<img>`. -/
structure Target where
  tagName : Option String
  id : Nat
deriving DecidableEq, Repr, Inhabited

/-- Observable actions emitted by the embedded methods. -/
inductive Ev where
  | create (cls : String) (img : Nat)
  | update (cls : String) (img : Nat)
  | destroy (cls : String) (img : Nat)
  | styleWrite (overlayId : Nat) (left : Int) (top : Int) (width : Int) (height : Int)
  | readImgRect
  | readContainerRect
  | deleteImageAt (img : Nat)
  | alertMsg (msg : String)
  | preventDefault
deriving DecidableEq, Repr

/-- The mutable state of one `ImageResize` instance, together with the DOM
facts the specification talks about.  `modules` holds the live module
instances, each identified by its class name and the image it was created
over; `attachedOverlays` lists the overlay elements currently appended to
`quill.root.parentNode` (ids drawn from `overlayCounter`);
`overlayStyle` is the positioned style of the current overlay element, if
any; the two listener flags record whether the container `keyup` listener
and the window-level capturing `click` listener are installed. -/
structure MState where
  moduleClasses : List String
  img : Option Nat
  overlay : Option Nat
  modules : List (String × Nat)
  overlayStyle : Option Rect
  overlayCounter : Nat
  attachedOverlays : List Nat
  keyupListener : Bool
  windowClickListener : Bool
  userSelect : String
deriving DecidableEq, Repr

/-- The state built by the constructor: no image, no overlay, no modules,
no selection-scoped listeners. -/
def initState (moduleClasses : List String) : MState :=
  { moduleClasses := moduleClasses
    img := none
    overlay := none
    modules := []
    overlayStyle := none
    overlayCounter := 0
    attachedOverlays := []
    keyupListener := false
    windowClickListener := false
    userSelect := "" }

/-- `repositionElements`: returns without reading or writing when either
the overlay or the image reference is absent; otherwise reads both
bounding rectangles and writes the computed style onto the overlay. -/
def repositionElements (g : Geom) (s : MState) : MState × List Ev :=
  match s.overlay, s.img with
  | some o, some _ =>
    ({ s with overlayStyle := some (Rect.mk
        (g.imgRect.left - g.containerRect.left - 1 + g.scrollLeft)
        (g.imgRect.top - g.containerRect.top + g.scrollTop)
        g.imgRect.width g.imgRect.height) },
     [Ev.readImgRect, Ev.readContainerRect,
      Ev.styleWrite o (g.imgRect.left - g.containerRect.left - 1 + g.scrollLeft)
        (g.imgRect.top - g.containerRect.top + g.scrollTop)
        g.imgRect.width g.imgRect.height])
  | _, _ => (s, [])

/-- `removeModules`: calls `onDestroy` on every live module in order, then
clears the instance list. -/
def removeModules (s : MState) : MState × List Ev :=
  ({ s with modules := [] }, s.modules.map fun m => Ev.destroy m.1 m.2)

/-- `onUpdate`: repositions the overlay, then calls `onUpdate` on every
live module in order. -/
def onUpdate (g : Geom) (s : MState) : MState × List Ev :=
  ((repositionElements g s).1,
   (repositionElements g s).2
     ++ (repositionElements g s).1.modules.map fun m => Ev.update m.1 m.2)

/-- `initializeModules`: tears down any live modules, instantiates one
module per configured class over the current image, calls `onCreate` on
each in configured order, then runs one `onUpdate` pass. -/
def initializeModules (g : Geom) (s : MState) : MState × List Ev :=
  ((onUpdate g { (removeModules s).1 with
      modules := (removeModules s).1.moduleClasses.map
        fun c => (c, (removeModules s).1.img.getD 0) }).1,
   (removeModules s).2
     ++ ((removeModules s).1.moduleClasses.map
          fun c => (c, (removeModules s).1.img.getD 0)).map
         (fun m => Ev.create m.1 m.2)
     ++ (onUpdate g { (removeModules s).1 with
          modules := (removeModules s).1.moduleClasses.map
            fun c => (c, (removeModules s).1.img.getD 0) }).2)

/-- `hideOverlay`: returns at once when no overlay exists; otherwise
removes the overlay element from the container, removes the container
`keyup` listener, clears the overlay reference and restores text
selection.  It does not touch the window-level click listener. -/
def hideOverlay (s : MState) : MState :=
  match s.overlay with
  | none => s
  | some o =>
    { s with attachedOverlays := s.attachedOverlays.erase o
             keyupListener := false
             overlay := none
             overlayStyle := none
             userSelect := "" }

/-- `hide`: hides the overlay, destroys the modules and clears the image
reference. -/
def hide (s : MState) : MState × List Ev :=
  ({ (removeModules (hideOverlay s)).1 with img := none },
   (removeModules (hideOverlay s)).2)

/-- `showOverlay`: tears down any existing overlay first, suppresses text
selection, installs the window-level capturing click listener, creates and
appends a fresh overlay element, installs the container `keyup` listener,
and repositions. -/
def showOverlay (g : Geom) (s : MState) : MState × List Ev :=
  repositionElements g
    { (if s.overlay.isSome then hideOverlay s else s) with
      userSelect := "none"
      windowClickListener := true
      overlay := some (if s.overlay.isSome then hideOverlay s else s).overlayCounter
      overlayCounter := (if s.overlay.isSome then hideOverlay s else s).overlayCounter + 1
      overlayStyle := none
      keyupListener := true
      attachedOverlays := (if s.overlay.isSome then hideOverlay s else s).attachedOverlays
        ++ [(if s.overlay.isSome then hideOverlay s else s).overlayCounter] }

/-- `show`: records the image, shows the overlay, initializes the modules.
(The source method is named `show`, a reserved word in Lean.) -/
def showImg (g : Geom) (img : Nat) (s : MState) : MState × List Ev :=
  ((initializeModules g (showOverlay g { s with img := some img }).1).1,
   (showOverlay g { s with img := some img }).2
     ++ (initializeModules g (showOverlay g { s with img := some img }).1).2)

/-- `String.prototype.toUpperCase`, applied character-wise (tag names are
ASCII; this equals `String.toUpper` but reduces in the kernel). -/
def toUpperCase (s : String) : String :=
  String.mk (s.data.map Char.toUpper)

/-- The guard `evt.target && evt.target.tagName &&
evt.target.tagName.toUpperCase() === "IMG"`. -/
def tagIsImg : Option Target → Bool
  | none => false
  | some tgt =>
    match tgt.tagName with
    | none => false
    | some tn => toUpperCase tn == "IMG"

/-- `handleClickInsideQuillInstance`: always hides first; then, when the
target is an image element, shows over it. -/
def handleClickInsideQuillInstance (g : Geom) (t : Option Target) (s : MState) :
    MState × List Ev :=
  if tagIsImg t then
    ((showImg g ((t.getD default).id) (hide s).1).1,
     (hide s).2 ++ (showImg g ((t.getD default).id) (hide s).1).2)
  else hide s

/-- `handleClickOutsideQuillInstance`: hides when the click target is not
contained in the editor root. -/
def handleClickOutsideQuillInstance (rootContainsTarget : Bool) (s : MState) :
    MState × List Ev :=
  if rootContainsTarget then (s, []) else hide s

/-- `deleteImage`: asks the host editor to delete the image node. -/
def deleteImage (img : Nat) : List Ev :=
  [Ev.deleteImageAt img]

/-- Outcome of the promise returned by `copyImageToClipboard`:
`resolved` is `resolve(true)`, `rejected` is `reject()`. -/
inductive PromiseOutcome where
  | resolved
  | rejected
deriving DecidableEq, Repr

/-- `copyImageToClipboard`: the clipboard write either succeeds, resolving
the returned promise with `true`, or fails with a DOM error
(name, message), in which case an alert is shown and the promise is
rejected. -/
def copyImageToClipboard (clip : Except (String × String) Unit) :
    PromiseOutcome × List Ev :=
  match clip with
  | Except.ok _ => (PromiseOutcome.resolved, [])
  | Except.error e =>
    (PromiseOutcome.rejected,
     [Ev.alertMsg ("Error adding image to clipboard: " ++ e.1 ++ " -> " ++ e.2)])

/-- Result of the async `checkImage` handler: the new state, the emitted
events, and whether a rejected promise escaped without any rejection
handler attached (from the fire-and-forget copy call, or from the `await`
rethrowing inside the un-awaited async handler). -/
structure CheckResult where
  state : MState
  events : List Ev
  unhandledRejection : Bool
deriving DecidableEq, Repr

/-- `checkImage`: no-op without a selected image; otherwise handles
Delete/Backspace (keyCodes 46/8), Ctrl/Cmd+C (fire-and-forget copy) and
Ctrl/Cmd+X (await copy; delete and hide only on success). -/
def checkImage (clip : Except (String × String) Unit) (evt : KeyEvt) (s : MState) :
    CheckResult :=
  match s.img with
  | none => ⟨s, [], false⟩
  | some img0 =>
    let r1 : MState × List Ev :=
      if evt.keyCode = 46 ∨ evt.keyCode = 8 then
        ((hide s).1, deleteImage img0 ++ (hide s).2)
      else (s, [])
    let r2 : MState × List Ev × Bool :=
      if (evt.ctrlKey ∨ evt.metaKey) ∧ evt.key = "c" then
        (r1.1, r1.2 ++ Ev.preventDefault :: (copyImageToClipboard clip).2,
         match (copyImageToClipboard clip).1 with
         | PromiseOutcome.rejected => true
         | PromiseOutcome.resolved => false)
      else (r1.1, r1.2, false)
    if (evt.ctrlKey ∨ evt.metaKey) ∧ evt.key = "x" then
      match (copyImageToClipboard clip).1 with
      | PromiseOutcome.resolved =>
        ⟨(hide r2.1).1,
         r2.2.1 ++ Ev.preventDefault :: (copyImageToClipboard clip).2
           ++ deleteImage (r2.1.img.getD 0) ++ (hide r2.1).2,
         r2.2.2⟩
      | PromiseOutcome.rejected =>
        ⟨r2.1, r2.2.1 ++ Ev.preventDefault :: (copyImageToClipboard clip).2, true⟩
    else ⟨r2.1, r2.2.1, r2.2.2⟩

/-- The `onDestroy` calls in a trace. -/
def destroys (t : List Ev) : List Ev :=
  t.filter fun e => match e with | Ev.destroy _ _ => true | _ => false

/-- The `onCreate` calls in a trace. -/
def creates (t : List Ev) : List Ev :=
  t.filter fun e => match e with | Ev.create _ _ => true | _ => false

/-- The single-overlay consistency invariant: the overlay elements
attached to the container are exactly the one the `overlay` reference
points at, when there is one. -/
def overlayConsistent (s : MState) : Bool :=
  s.attachedOverlays == (match s.overlay with | none => [] | some o => [o])

/-- Concrete geometry used to instantiate the theorems: the image rectangle
`{left 100, top 50, width 200, height 150}` in a container at
`{left 20, top 10}` with `scrollLeft 5`, `scrollTop 0`. -/
def gEx : Geom := ⟨⟨100, 50, 200, 150⟩, ⟨20, 10, 400, 300⟩, 5, 0⟩

/-- The constructor state with the default module class list. -/
def sInit : MState := initState ["DisplaySize", "Toolbar", "Resize"]

/-- A reachable selected state: image 7 selected from the constructor
state. -/
def sSel : MState := (showImg gEx 7 sInit).1

section Helpers

@[simp]
lemma hideOverlay_moduleClasses (s : MState) :
    (hideOverlay s).moduleClasses = s.moduleClasses := by
  cases h : s.overlay <;> simp [hideOverlay, h]

@[simp]
lemma hideOverlay_img (s : MState) : (hideOverlay s).img = s.img := by
  cases h : s.overlay <;> simp [hideOverlay, h]

@[simp]
lemma hideOverlay_modules (s : MState) : (hideOverlay s).modules = s.modules := by
  cases h : s.overlay <;> simp [hideOverlay, h]

@[simp]
lemma hideOverlay_overlay (s : MState) : (hideOverlay s).overlay = none := by
  cases h : s.overlay <;> simp [hideOverlay, h]

@[simp]
lemma hideOverlay_windowClickListener (s : MState) :
    (hideOverlay s).windowClickListener = s.windowClickListener := by
  cases h : s.overlay <;> simp [hideOverlay, h]

@[simp]
lemma hideOverlay_overlayCounter (s : MState) :
    (hideOverlay s).overlayCounter = s.overlayCounter := by
  cases h : s.overlay <;> simp [hideOverlay, h]

@[simp]
lemma removeModules_fst (s : MState) :
    (removeModules s).1 = { s with modules := [] } := rfl

@[simp]
lemma removeModules_snd (s : MState) :
    (removeModules s).2 = s.modules.map fun m => Ev.destroy m.1 m.2 := rfl

@[simp]
lemma repositionElements_fst_moduleClasses (g : Geom) (s : MState) :
    (repositionElements g s).1.moduleClasses = s.moduleClasses := by
  cases ho : s.overlay <;> cases hi : s.img <;> simp [repositionElements, ho, hi]

@[simp]
lemma repositionElements_fst_img (g : Geom) (s : MState) :
    (repositionElements g s).1.img = s.img := by
  cases ho : s.overlay <;> cases hi : s.img <;> simp [repositionElements, ho, hi]

@[simp]
lemma repositionElements_fst_overlay (g : Geom) (s : MState) :
    (repositionElements g s).1.overlay = s.overlay := by
  cases ho : s.overlay <;> cases hi : s.img <;> simp [repositionElements, ho, hi]

@[simp]
lemma repositionElements_fst_modules (g : Geom) (s : MState) :
    (repositionElements g s).1.modules = s.modules := by
  cases ho : s.overlay <;> cases hi : s.img <;> simp [repositionElements, ho, hi]

@[simp]
lemma repositionElements_fst_attachedOverlays (g : Geom) (s : MState) :
    (repositionElements g s).1.attachedOverlays = s.attachedOverlays := by
  cases ho : s.overlay <;> cases hi : s.img <;> simp [repositionElements, ho, hi]

@[simp]
lemma repositionElements_fst_keyupListener (g : Geom) (s : MState) :
    (repositionElements g s).1.keyupListener = s.keyupListener := by
  cases ho : s.overlay <;> cases hi : s.img <;> simp [repositionElements, ho, hi]

@[simp]
lemma repositionElements_fst_windowClickListener (g : Geom) (s : MState) :
    (repositionElements g s).1.windowClickListener = s.windowClickListener := by
  cases ho : s.overlay <;> cases hi : s.img <;> simp [repositionElements, ho, hi]

@[simp]
lemma repositionElements_fst_overlayCounter (g : Geom) (s : MState) :
    (repositionElements g s).1.overlayCounter = s.overlayCounter := by
  cases ho : s.overlay <;> cases hi : s.img <;> simp [repositionElements, ho, hi]

end Helpers

section Helpers2

@[simp]
lemma showOverlay_fst_moduleClasses (g : Geom) (s : MState) :
    (showOverlay g s).1.moduleClasses = s.moduleClasses := by
  by_cases h : s.overlay.isSome <;> simp [showOverlay, h]

@[simp]
lemma showOverlay_fst_img (g : Geom) (s : MState) :
    (showOverlay g s).1.img = s.img := by
  by_cases h : s.overlay.isSome <;> simp [showOverlay, h]

@[simp]
lemma showOverlay_fst_modules (g : Geom) (s : MState) :
    (showOverlay g s).1.modules = s.modules := by
  by_cases h : s.overlay.isSome <;> simp [showOverlay, h]

@[simp]
lemma showOverlay_fst_overlay (g : Geom) (s : MState) :
    (showOverlay g s).1.overlay
      = some (if s.overlay.isSome then hideOverlay s else s).overlayCounter := by
  by_cases h : s.overlay.isSome <;> simp [showOverlay, h]

@[simp]
lemma showOverlay_fst_keyupListener (g : Geom) (s : MState) :
    (showOverlay g s).1.keyupListener = true := by
  by_cases h : s.overlay.isSome <;> simp [showOverlay, h]

@[simp]
lemma showOverlay_fst_windowClickListener (g : Geom) (s : MState) :
    (showOverlay g s).1.windowClickListener = true := by
  by_cases h : s.overlay.isSome <;> simp [showOverlay, h]

@[simp]
lemma hide_fst_img (s : MState) : (hide s).1.img = none := by
  simp [hide]

@[simp]
lemma hide_fst_overlay (s : MState) : (hide s).1.overlay = none := by
  simp [hide]

@[simp]
lemma hide_fst_modules (s : MState) : (hide s).1.modules = [] := by
  simp [hide]

@[simp]
lemma hide_fst_moduleClasses (s : MState) :
    (hide s).1.moduleClasses = s.moduleClasses := by
  simp [hide]

@[simp]
lemma hide_fst_windowClickListener (s : MState) :
    (hide s).1.windowClickListener = s.windowClickListener := by
  simp [hide]

@[simp]
lemma hide_snd (s : MState) :
    (hide s).2 = s.modules.map fun m => Ev.destroy m.1 m.2 := by
  simp [hide]

@[simp]
lemma initializeModules_fst_img (g : Geom) (s : MState) :
    (initializeModules g s).1.img = s.img := by
  simp [initializeModules, onUpdate]

@[simp]
lemma initializeModules_fst_overlay (g : Geom) (s : MState) :
    (initializeModules g s).1.overlay = s.overlay := by
  simp [initializeModules, onUpdate]

@[simp]
lemma initializeModules_fst_moduleClasses (g : Geom) (s : MState) :
    (initializeModules g s).1.moduleClasses = s.moduleClasses := by
  simp [initializeModules, onUpdate]

@[simp]
lemma initializeModules_fst_attachedOverlays (g : Geom) (s : MState) :
    (initializeModules g s).1.attachedOverlays = s.attachedOverlays := by
  simp [initializeModules, onUpdate]

@[simp]
lemma showImg_fst_img (g : Geom) (i : Nat) (s : MState) :
    (showImg g i s).1.img = some i := by
  simp [showImg]

@[simp]
lemma showImg_fst_overlay_isSome (g : Geom) (i : Nat) (s : MState) :
    (showImg g i s).1.overlay.isSome = true := by
  simp [showImg]

end Helpers2

section TraceHelpers

@[simp]
lemma destroys_nil : destroys [] = [] := rfl

@[simp]
lemma creates_nil : creates [] = [] := rfl

@[simp]
lemma destroys_append (a b : List Ev) :
    destroys (a ++ b) = destroys a ++ destroys b := by
  simp [destroys, List.filter_append]

@[simp]
lemma creates_append (a b : List Ev) :
    creates (a ++ b) = creates a ++ creates b := by
  simp [creates, List.filter_append]

@[simp]
lemma destroys_map_destroy (l : List (String × Nat)) :
    destroys (l.map fun m => Ev.destroy m.1 m.2) = l.map fun m => Ev.destroy m.1 m.2 := by
  induction l with
  | nil => rfl
  | cons a t ih => simp [destroys, List.filter] at ih ⊢ ; exact ih

@[simp]
lemma creates_map_destroy (l : List (String × Nat)) :
    creates (l.map fun m => Ev.destroy m.1 m.2) = [] := by
  induction l with
  | nil => rfl
  | cons a t ih => simp [creates, List.filter] at ih ⊢ ; exact ih

@[simp]
lemma destroys_map_create (l : List (String × Nat)) :
    destroys (l.map fun m => Ev.create m.1 m.2) = [] := by
  induction l with
  | nil => rfl
  | cons a t ih => simp [destroys, List.filter] at ih ⊢ ; exact ih

@[simp]
lemma creates_map_create (l : List (String × Nat)) :
    creates (l.map fun m => Ev.create m.1 m.2) = l.map fun m => Ev.create m.1 m.2 := by
  induction l with
  | nil => rfl
  | cons a t ih => simp [creates, List.filter] at ih ⊢ ; exact ih

@[simp]
lemma destroys_map_update (l : List (String × Nat)) :
    destroys (l.map fun m => Ev.update m.1 m.2) = [] := by
  induction l with
  | nil => rfl
  | cons a t ih => simp [destroys, List.filter] at ih ⊢ ; exact ih

@[simp]
lemma creates_map_update (l : List (String × Nat)) :
    creates (l.map fun m => Ev.update m.1 m.2) = [] := by
  induction l with
  | nil => rfl
  | cons a t ih => simp [creates, List.filter] at ih ⊢ ; exact ih

@[simp]
lemma destroys_repositionElements (g : Geom) (s : MState) :
    destroys (repositionElements g s).2 = [] := by
  cases ho : s.overlay <;> cases hi : s.img <;>
    simp [repositionElements, ho, hi, destroys, List.filter]

@[simp]
lemma creates_repositionElements (g : Geom) (s : MState) :
    creates (repositionElements g s).2 = [] := by
  cases ho : s.overlay <;> cases hi : s.img <;>
    simp [repositionElements, ho, hi, creates, List.filter]

end TraceHelpers

section CoreHelpers

lemma hide_of_cleared (t : MState) (h1 : t.overlay = none) (h2 : t.modules = [])
    (h3 : t.img = none) : hide t = (t, []) := by
  cases t
  simp_all [hide, hideOverlay, removeModules]

lemma hide_hide (s : MState) : hide ((hide s).1) = ((hide s).1, []) :=
  hide_of_cleared _ (hide_fst_overlay s) (hide_fst_modules s) (hide_fst_img s)

@[simp]
lemma hide_fst_attachedOverlays (s : MState) :
    (hide s).1.attachedOverlays = (hideOverlay s).attachedOverlays := by
  simp [hide]

lemma oc_hideOverlay (s : MState) (h : overlayConsistent s = true) :
    overlayConsistent (hideOverlay s) = true := by
  cases ho : s.overlay with
  | none => simpa [hideOverlay, ho] using h
  | some o =>
    simp [overlayConsistent, ho] at h
    simp [overlayConsistent, hideOverlay, ho, h]

lemma oc_hide (s : MState) (h : overlayConsistent s = true) :
    overlayConsistent (hide s).1 = true := by
  have h2 := oc_hideOverlay s h
  simp [overlayConsistent, hide] at h2 ⊢
  exact h2

lemma checkImage_state (clip : Except (String × String) Unit) (evt : KeyEvt)
    (s : MState) :
    (checkImage clip evt s).state = s ∨ (checkImage clip evt s).state = (hide s).1 := by
  unfold checkImage
  cases hi : s.img with
  | none => exact Or.inl rfl
  | some i =>
    by_cases h1 : evt.keyCode = 46 ∨ evt.keyCode = 8 <;>
      by_cases h2 : (evt.ctrlKey ∨ evt.metaKey) ∧ evt.key = "c" <;>
        by_cases h3 : (evt.ctrlKey ∨ evt.metaKey) ∧ evt.key = "x" <;>
          cases hc : (copyImageToClipboard clip).1 <;>
            simp [h1, h2, h3, hc, hide_hide]

end CoreHelpers

section CoreHelpers2

lemma oc_repositionElements (g : Geom) (s : MState) (h : overlayConsistent s = true) :
    overlayConsistent (repositionElements g s).1 = true := by
  simpa [overlayConsistent] using h

lemma oc_showOverlay (g : Geom) (s : MState) (h : overlayConsistent s = true) :
    overlayConsistent (showOverlay g s).1 = true := by
  cases ho : s.overlay with
  | none =>
    simp [overlayConsistent, ho] at h
    apply oc_repositionElements
    simp [overlayConsistent, ho, h]
  | some o =>
    simp [overlayConsistent, ho] at h
    apply oc_repositionElements
    simp [overlayConsistent, ho, hideOverlay, h]

lemma oc_initializeModules (g : Geom) (s : MState) (h : overlayConsistent s = true) :
    overlayConsistent (initializeModules g s).1 = true := by
  simpa [overlayConsistent] using h

lemma oc_showImg (g : Geom) (i : Nat) (s : MState) (h : overlayConsistent s = true) :
    overlayConsistent (showImg g i s).1 = true := by
  have h1 : overlayConsistent { s with img := some i } = true := by
    simpa [overlayConsistent] using h
  have h2 := oc_showOverlay g { s with img := some i } h1
  have h3 := oc_initializeModules g _ h2
  simpa [showImg] using h3

lemma oc_handleClickInsideQuillInstance (g : Geom) (t : Option Target) (s : MState)
    (h : overlayConsistent s = true) :
    overlayConsistent (handleClickInsideQuillInstance g t s).1 = true := by
  unfold handleClickInsideQuillInstance
  by_cases ht : tagIsImg t = true
  · simpa [ht] using oc_showImg g _ _ (oc_hide s h)
  · simp at ht
    simpa [ht] using oc_hide s h

lemma oc_handleClickOutsideQuillInstance (rc : Bool) (s : MState)
    (h : overlayConsistent s = true) :
    overlayConsistent (handleClickOutsideQuillInstance rc s).1 = true := by
  unfold handleClickOutsideQuillInstance
  cases rc
  · simpa using oc_hide s h
  · simpa using h

lemma oc_checkImage (clip : Except (String × String) Unit) (evt : KeyEvt)
    (s : MState) (h : overlayConsistent s = true) :
    overlayConsistent (checkImage clip evt s).state = true := by
  rcases checkImage_state clip evt s with hs | hs <;> rw [hs]
  · exact h
  · exact oc_hide s h

end CoreHelpers2

/-- Claim C3: `hide` (deselect) is idempotent — a second immediate call
yields the identical state and performs no DOM mutation and no module
call — and calling it with no active selection (no overlay, no modules,
no image) is a no-op. -/
theorem hide_idempotent_noop (s : MState) :
    hide ((hide s).1) = ((hide s).1, [])
    ∧ (s.overlay = none → s.modules = [] → s.img = none → hide s = (s, [])) :=
  ⟨hide_hide s, fun h1 h2 h3 => hide_of_cleared s h1 h2 h3⟩

/-- Witness for C3 at the concrete selected state and the constructor
state. -/
theorem hide_idempotent_noop_witness :
    hide ((hide sSel).1) = ((hide sSel).1, []) ∧ hide sInit = (sInit, []) :=
  ⟨(hide_idempotent_noop sSel).1, (hide_idempotent_noop sInit).2 rfl rfl rfl⟩

/-- Claim C4: with both an overlay and a selected image present,
`repositionElements` writes exactly `left = imgLeft - containerLeft - 1 +
scrollLeft`, `top = imgTop - containerTop + scrollTop`,
`width = imgWidth`, `height = imgHeight` onto the overlay style, after
reading both bounding rectangles. -/
theorem repositionElements_formula (g : Geom) (s : MState) (o i : Nat)
    (ho : s.overlay = some o) (hi : s.img = some i) :
    repositionElements g s =
      ({ s with overlayStyle := some (Rect.mk
          (g.imgRect.left - g.containerRect.left - 1 + g.scrollLeft)
          (g.imgRect.top - g.containerRect.top + g.scrollTop)
          g.imgRect.width g.imgRect.height) },
       [Ev.readImgRect, Ev.readContainerRect,
        Ev.styleWrite o (g.imgRect.left - g.containerRect.left - 1 + g.scrollLeft)
          (g.imgRect.top - g.containerRect.top + g.scrollTop)
          g.imgRect.width g.imgRect.height]) := by
  simp [repositionElements, ho, hi]

/-- Witness for C4 at the spec's oracle rectangles: the style resolves to
`left 84, top 40, width 200, height 150` (84 = 100 - 20 - 1 + 5,
40 = 50 - 10 + 0). -/
theorem repositionElements_formula_witness :
    (repositionElements gEx sSel).1.overlayStyle = some (Rect.mk 84 40 200 150)
    ∧ (repositionElements gEx sSel).2
        = [Ev.readImgRect, Ev.readContainerRect, Ev.styleWrite 0 84 40 200 150] := by
  rw [repositionElements_formula gEx sSel 0 7 (by decide) (by decide)]
  decide

/-- Claim C8: with no active selection (no overlay or no image reference),
`repositionElements` returns without writing any style, without emitting
any event, without reading any geometry, and without changing the
state. -/
theorem repositionElements_noop (g : Geom) (s : MState)
    (h : s.overlay = none ∨ s.img = none) :
    repositionElements g s = (s, []) := by
  rcases h with h | h <;> cases ho : s.overlay <;> cases hi : s.img <;>
    simp_all [repositionElements]

/-- Witness for C8 at the constructor state. -/
theorem repositionElements_noop_witness :
    repositionElements gEx sInit = (sInit, []) :=
  repositionElements_noop gEx sInit (Or.inl rfl)

/-- Claim C9: a keyup whose key is Delete or Backspace (keyCode 46 or 8)
deletes the selected image from the host document and fully deselects
(overlay removed, modules destroyed, image reference cleared); with no
selected image the event is a no-op. -/
theorem delete_key_behavior (clip : Except (String × String) Unit) (evt : KeyEvt)
    (s : MState) (i : Nat)
    (hk : evt.keyCode = 46 ∨ evt.keyCode = 8)
    (hkey : evt.key = "Delete" ∨ evt.key = "Backspace") :
    (s.img = some i →
      checkImage clip evt s
          = ⟨(hide s).1, Ev.deleteImageAt i :: (hide s).2, false⟩
      ∧ (hide s).1.img = none ∧ (hide s).1.overlay = none
      ∧ (hide s).1.modules = [])
    ∧ (s.img = none → checkImage clip evt s = ⟨s, [], false⟩) := by
  have hc : evt.key ≠ "c" := by rcases hkey with h | h <;> rw [h] <;> decide
  have hx : evt.key ≠ "x" := by rcases hkey with h | h <;> rw [h] <;> decide
  constructor
  · intro hi
    refine ⟨?_, hide_fst_img s, hide_fst_overlay s, hide_fst_modules s⟩
    unfold checkImage
    rcases hk with h | h <;> simp [hi, h, hc, hx, deleteImage]
  · intro hi
    unfold checkImage
    simp [hi]

/-- Witness for C9: Delete keyup at the concrete selected state deletes
image 7 and deselects; the same keyup at the constructor state is a
no-op. -/
theorem delete_key_behavior_witness :
    checkImage (Except.ok ()) ⟨46, "Delete", false, false⟩ sSel
        = ⟨(hide sSel).1, Ev.deleteImageAt 7 :: (hide sSel).2, false⟩
    ∧ checkImage (Except.ok ()) ⟨46, "Delete", false, false⟩ sInit
        = ⟨sInit, [], false⟩ := by
  refine ⟨((delete_key_behavior (Except.ok ()) ⟨46, "Delete", false, false⟩ sSel 7
      (Or.inl rfl) (Or.inl rfl)).1 (by decide)).1, ?_⟩
  exact (delete_key_behavior (Except.ok ()) ⟨46, "Delete", false, false⟩ sInit 7
      (Or.inl rfl) (Or.inl rfl)).2 rfl

/-- Claim C1: a Ctrl/Cmd+X keyup with an image selected: when the
clipboard export resolves, the image is deleted from the host document and
the selection is fully cleared; when the export rejects, the state is
unchanged — in particular the image is neither deleted nor deselected. -/
theorem cut_fail_closed (s : MState) (evt : KeyEvt) (i : Nat)
    (err : String × String)
    (himg : s.img = some i)
    (hmod : evt.ctrlKey = true ∨ evt.metaKey = true)
    (hkey : evt.key = "x")
    (hkc1 : evt.keyCode ≠ 46) (hkc2 : evt.keyCode ≠ 8) :
    (checkImage (Except.ok ()) evt s
        = ⟨(hide s).1, Ev.preventDefault :: Ev.deleteImageAt i :: (hide s).2, false⟩
      ∧ (hide s).1.img = none ∧ (hide s).1.overlay = none
      ∧ (hide s).1.modules = [])
    ∧ (checkImage (Except.error err) evt s
        = ⟨s, [Ev.preventDefault,
               Ev.alertMsg ("Error adding image to clipboard: "
                 ++ err.1 ++ " -> " ++ err.2)], true⟩
      ∧ ∀ j, Ev.deleteImageAt j ∉ (checkImage (Except.error err) evt s).events) := by
  have hc : evt.key ≠ "c" := by rw [hkey]; decide
  constructor
  · refine ⟨?_, hide_fst_img s, hide_fst_overlay s, hide_fst_modules s⟩
    unfold checkImage
    rcases hmod with hm | hm <;>
      simp [himg, hkc1, hkc2, hc, hkey, hm, deleteImage, copyImageToClipboard]
  · have he : checkImage (Except.error err) evt s
        = ⟨s, [Ev.preventDefault,
               Ev.alertMsg ("Error adding image to clipboard: "
                 ++ err.1 ++ " -> " ++ err.2)], true⟩ := by
      unfold checkImage
      rcases hmod with hm | hm <;>
        simp [himg, hkc1, hkc2, hc, hkey, hm, copyImageToClipboard]
    refine ⟨he, fun j => ?_⟩
    rw [he]
    simp

/-- Witness for C1: Ctrl+X at the concrete selected state — successful
export deletes image 7 and clears the selection; failed export leaves the
state exactly as it was. -/
theorem cut_fail_closed_witness :
    checkImage (Except.ok ()) ⟨88, "x", true, false⟩ sSel
        = ⟨(hide sSel).1, Ev.preventDefault :: Ev.deleteImageAt 7 :: (hide sSel).2, false⟩
    ∧ (checkImage (Except.error ("NotAllowedError", "denied"))
        ⟨88, "x", true, false⟩ sSel).state = sSel := by
  have h := cut_fail_closed sSel ⟨88, "x", true, false⟩ 7 ("NotAllowedError", "denied")
    (by decide) (Or.inl rfl) rfl (by decide) (by decide)
  exact ⟨h.1.1, by rw [h.2.1]⟩

/-- Claim C5 counterexample: a clipboard failure during the Ctrl/Cmd+C
copy path (fire-and-forget call, no rejection handler) and during the
Ctrl/Cmd+X cut path (`await` rethrowing inside the un-awaited async
handler) both end in an unhandled rejection, contradicting the claim that
neither path can. -/
theorem copy_failure_unhandled :
    (checkImage (Except.error ("NotAllowedError", "denied"))
        ⟨67, "c", true, false⟩ sSel).unhandledRejection = true
    ∧ (checkImage (Except.error ("NotAllowedError", "denied"))
        ⟨88, "x", true, false⟩ sSel).unhandledRejection = true := by
  decide

/-- Claim C5 as amended: the export resolves on success; on failure it
surfaces the user-visible alert and rejects, and the rejection is handled
by neither the copy nor the cut caller, so a failing export ends in an
unhandled rejection (the cut path still does not delete the image). -/
theorem clipboard_failure_surfaced (err : String × String) (s : MState)
    (evt : KeyEvt)
    (himg : s.img.isSome = true)
    (hmod : evt.ctrlKey = true ∨ evt.metaKey = true)
    (hkey : evt.key = "c" ∨ evt.key = "x") :
    copyImageToClipboard (Except.ok ()) = (PromiseOutcome.resolved, [])
    ∧ (copyImageToClipboard (Except.error err)).1 = PromiseOutcome.rejected
    ∧ (copyImageToClipboard (Except.error err)).2
        = [Ev.alertMsg ("Error adding image to clipboard: "
            ++ err.1 ++ " -> " ++ err.2)]
    ∧ (checkImage (Except.error err) evt s).unhandledRejection = true := by
    refine ⟨rfl, rfl, rfl, ?_⟩
    obtain ⟨i, hi⟩ := Option.isSome_iff_exists.mp himg
    unfold checkImage
    rcases hkey with hk | hk <;> rcases hmod with hm | hm <;>
      simp [hi, hk, hm, copyImageToClipboard]

/-- Witness for C5 amended, at the concrete selected state with a concrete
clipboard error on the copy chord. -/
theorem clipboard_failure_surfaced_witness :
    (copyImageToClipboard (Except.error ("NotAllowedError", "denied"))).2
        = [Ev.alertMsg ("Error adding image to clipboard: NotAllowedError -> denied")]
    ∧ (checkImage (Except.error ("NotAllowedError", "denied"))
        ⟨67, "c", true, false⟩ sSel).unhandledRejection = true := by
  have h := clipboard_failure_surfaced ("NotAllowedError", "denied") sSel
    ⟨67, "c", true, false⟩ (by decide) (Or.inl rfl) (Or.inl rfl)
  exact ⟨h.2.2.1, h.2.2.2⟩

/-- Claim C2 counterexample: from the constructor state, select image 7
(which installs the window-level capturing click listener), then click
outside the editor root.  The overlay is removed and the container keyup
listener is removed, but the window-level capturing click listener is
still installed after the deselect — the source never calls
`window.removeEventListener`. -/
theorem window_listener_survives :
    sSel.windowClickListener = true
    ∧ (handleClickOutsideQuillInstance false sSel).1.overlay = none
    ∧ (handleClickOutsideQuillInstance false sSel).1.keyupListener = false
    ∧ (handleClickOutsideQuillInstance false sSel).1.windowClickListener = true := by
  decide

/-- Claim C2 as amended: after a deselect triggered by a click outside the
editor root, the overlay element is removed from the container, the
container keyup listener is removed, the modules are destroyed and the
image reference is cleared — but the window-level capturing click listener
installed at select time remains installed. -/
theorem deselect_cleanup_except_window (s : MState) (o : Nat)
    (ho : s.overlay = some o) (hw : s.windowClickListener = true) :
    (handleClickOutsideQuillInstance false s).1.overlay = none
    ∧ (handleClickOutsideQuillInstance false s).1.attachedOverlays
        = s.attachedOverlays.erase o
    ∧ (handleClickOutsideQuillInstance false s).1.keyupListener = false
    ∧ (handleClickOutsideQuillInstance false s).1.modules = []
    ∧ (handleClickOutsideQuillInstance false s).1.img = none
    ∧ (handleClickOutsideQuillInstance false s).1.windowClickListener = true := by
  simp [handleClickOutsideQuillInstance, hide, hideOverlay, ho, hw]

/-- Witness for C2 amended at the concrete selected state. -/
theorem deselect_cleanup_except_window_witness :
    (handleClickOutsideQuillInstance false sSel).1.overlay = none
    ∧ (handleClickOutsideQuillInstance false sSel).1.attachedOverlays
        = sSel.attachedOverlays.erase 0
    ∧ (handleClickOutsideQuillInstance false sSel).1.keyupListener = false
    ∧ (handleClickOutsideQuillInstance false sSel).1.modules = []
    ∧ (handleClickOutsideQuillInstance false sSel).1.img = none
    ∧ (handleClickOutsideQuillInstance false sSel).1.windowClickListener = true :=
  deselect_cleanup_except_window sSel 0 (by decide) (by decide)

section TraceHelpers2

@[simp]
lemma destroys_map_create_over (l : List String) (i : Nat) :
    destroys (l.map fun c => Ev.create c i) = [] := by
  induction l with
  | nil => rfl
  | cons a t ih => simp_all [destroys, List.filter]

@[simp]
lemma creates_map_create_over (l : List String) (i : Nat) :
    creates (l.map fun c => Ev.create c i) = l.map fun c => Ev.create c i := by
  induction l with
  | nil => rfl
  | cons a t ih => simp_all [creates, List.filter]

@[simp]
lemma destroys_map_update_over (l : List String) (i : Nat) :
    destroys (l.map fun c => Ev.update c i) = [] := by
  induction l with
  | nil => rfl
  | cons a t ih => simp_all [destroys, List.filter]

@[simp]
lemma creates_map_update_over (l : List String) (i : Nat) :
    creates (l.map fun c => Ev.update c i) = [] := by
  induction l with
  | nil => rfl
  | cons a t ih => simp_all [creates, List.filter]

@[simp]
lemma comp_create_pair (i : Nat) :
    ((fun m : String × Nat => Ev.create m.1 m.2) ∘ fun c : String => (c, i))
      = fun c => Ev.create c i := by
  funext c
  rfl

@[simp]
lemma comp_update_pair (i : Nat) :
    ((fun m : String × Nat => Ev.update m.1 m.2) ∘ fun c : String => (c, i))
      = fun c => Ev.update c i := by
  funext c
  rfl

@[simp]
lemma destroys_showOverlay (g : Geom) (s : MState) :
    destroys (showOverlay g s).2 = [] := by
  simp [showOverlay]

@[simp]
lemma creates_showOverlay (g : Geom) (s : MState) :
    creates (showOverlay g s).2 = [] := by
  simp [showOverlay]

end TraceHelpers2

/-- Claim C6: selecting image B (an image-element click) while image A is
selected emits exactly one `onDestroy` per live module of A, in configured
order, before any `onCreate` of B's modules; `onCreate` runs once per
configured class over B; and `removeModules` (teardown) is a no-op on an
empty module list. -/
theorem teardown_before_setup (g : Geom) (s : MState) (tgt : Target) (a : Nat)
    (hA : s.img = some a) (ht : tagIsImg (some tgt) = true) :
    ((handleClickInsideQuillInstance g (some tgt) s).2
        = (s.modules.map fun m => Ev.destroy m.1 m.2)
          ++ (showImg g tgt.id (hide s).1).2
      ∧ destroys (showImg g tgt.id (hide s).1).2 = []
      ∧ creates (showImg g tgt.id (hide s).1).2
          = s.moduleClasses.map fun c => Ev.create c tgt.id)
    ∧ ∀ t : MState, t.modules = [] → removeModules t = (t, []) := by
  refine ⟨⟨?_, ?_, ?_⟩, ?_⟩
  · simp [handleClickInsideQuillInstance, ht]
  · simp [showImg, initializeModules, onUpdate, Function.comp]
  · simp [showImg, initializeModules, onUpdate, Function.comp]
  · intro t h
    cases t
    simp_all [removeModules]

/-- Witness for C6: clicking image 9 while image 7 is selected, at the
concrete selected state; teardown is also a no-op at the constructor
state. -/
theorem teardown_before_setup_witness :
    (handleClickInsideQuillInstance gEx (some ⟨some ("img"), 9⟩) sSel).2
        = (sSel.modules.map fun m => Ev.destroy m.1 m.2)
          ++ (showImg gEx 9 (hide sSel).1).2
    ∧ destroys (showImg gEx 9 (hide sSel).1).2 = []
    ∧ creates (showImg gEx 9 (hide sSel).1).2
        = sSel.moduleClasses.map (fun c => Ev.create c 9)
    ∧ removeModules sInit = (sInit, []) := by
  have h := teardown_before_setup gEx sSel ⟨some ("img"), 9⟩ 7 (by decide) (by decide)
  exact ⟨h.1.1, h.1.2.1, h.1.2.2, h.2 sInit rfl⟩

/-- Claim C7: every click inside the editor root first fully clears any
prior selection (the trace starts with the teardown, and `hide` clears
image, overlay and modules); then the target becomes the new selection
exactly when its tag name is IMG (case-insensitively), and a non-image
click leaves the system deselected (the handler is exactly `hide`). -/
theorem click_inside_routing (g : Geom) (t : Option Target) (s : MState) :
    (tagIsImg t = false → handleClickInsideQuillInstance g t s = hide s)
    ∧ (∀ tgt : Target, t = some tgt → tagIsImg t = true →
        (handleClickInsideQuillInstance g t s).1.img = some tgt.id
        ∧ (handleClickInsideQuillInstance g t s).1.overlay.isSome = true
        ∧ (handleClickInsideQuillInstance g t s).2
            = (hide s).2 ++ (showImg g tgt.id (hide s).1).2)
    ∧ (hide s).1.img = none ∧ (hide s).1.overlay = none
    ∧ (hide s).1.modules = [] := by
  refine ⟨?_, ?_, hide_fst_img s, hide_fst_overlay s, hide_fst_modules s⟩
  · intro h
    simp [handleClickInsideQuillInstance, h]
  · intro tgt ht h
    subst ht
    simp [handleClickInsideQuillInstance, h]

/-- Witness for C7: a DIV click at the concrete selected state acts
exactly as a deselect; an image click selects image 9. -/
theorem click_inside_routing_witness :
    handleClickInsideQuillInstance gEx (some ⟨some ("DIV"), 3⟩) sSel = hide sSel
    ∧ (handleClickInsideQuillInstance gEx (some ⟨some ("img"), 9⟩) sSel).1.img
        = some 9 := by
  refine ⟨(click_inside_routing gEx (some ⟨some ("DIV"), 3⟩) sSel).1 (by decide), ?_⟩
  exact ((click_inside_routing gEx (some ⟨some ("img"), 9⟩) sSel).2.1
    ⟨some ("img"), 9⟩ rfl (by decide)).1

/-- Claim C10: the single-overlay invariant: if the attached overlay
elements are exactly the referenced one, this is preserved by every
operation — in particular by `showOverlay`/`show`, which tear down any
existing overlay before appending the new one — so at most one overlay
element is ever attached and the reference always names the attached
element. -/
theorem overlay_at_most_one (g : Geom) (t : Option Target) (rc : Bool)
    (clip : Except (String × String) Unit) (evt : KeyEvt) (i : Nat) (s : MState)
    (h : overlayConsistent s = true) :
    overlayConsistent (showOverlay g s).1 = true
    ∧ overlayConsistent (showImg g i s).1 = true
    ∧ overlayConsistent (hide s).1 = true
    ∧ overlayConsistent (handleClickInsideQuillInstance g t s).1 = true
    ∧ overlayConsistent (handleClickOutsideQuillInstance rc s).1 = true
    ∧ overlayConsistent (checkImage clip evt s).state = true
    ∧ (showImg g i s).1.attachedOverlays.length ≤ 1
    ∧ ∀ o, (showImg g i s).1.overlay = some o →
        (showImg g i s).1.attachedOverlays = [o] := by
  have h2 := oc_showImg g i s h
  refine ⟨oc_showOverlay g s h, h2, oc_hide s h,
    oc_handleClickInsideQuillInstance g t s h,
    oc_handleClickOutsideQuillInstance rc s h,
    oc_checkImage clip evt s h, ?_, ?_⟩
  · simp [overlayConsistent] at h2
    cases ho : (showImg g i s).1.overlay <;> rw [ho] at h2 <;> simp [h2]
  · intro o ho
    simp [overlayConsistent, ho] at h2
    exact h2

/-- Witness for C10 from the constructor state: selecting image 7 leaves
exactly one attached overlay, the one the reference names. -/
theorem overlay_at_most_one_witness :
    overlayConsistent (showImg gEx 7 sInit).1 = true
    ∧ (showImg gEx 7 sInit).1.attachedOverlays.length ≤ 1
    ∧ (showImg gEx 7 sInit).1.attachedOverlays = [0] := by
  have h := overlay_at_most_one gEx none false (Except.ok ()) ⟨0, "a", false, false⟩
    7 sInit (by decide)
  exact ⟨h.2.1, h.2.2.2.2.2.2.1, h.2.2.2.2.2.2.2 0 (by decide)⟩
